import Mathlib

/-! # union_designer2D: the Model, the scene items, the overlay button and the canvas

A shallow embedding of `src/Model.h` and `src/main.cpp`.

* C++ `float` values are embedded as rationals (`ℚ`), the finite values only.
  Arithmetic on them is exact, with one exception: where the rounding of a
  `float` operation decides a comparison, in `Button::CheckClick` and in the
  conversion of the click position that feeds it, the result is rounded to
  IEEE 754 binary32 (`roundFloat32`).
* C++ `int` values are embedded as `Int`.
* A member function that mutates its object becomes a function returning the
  new object; a function that talks to OpenGL, wxWidgets or `std::cout`
  returns the list of calls it makes, in program order (`Call`).
-/

/-! ## Model.h -/

/-- Class `Model` (Model.h:7-103); the defaults are the member initialisers of
lines 96-102. -/
structure Model where
  rotationAngle : ℚ := 0
  zoomLevel : ℚ := 1
  showTriangle : Bool := true
  width : Int := 0
  height : Int := 0
  cx : ℚ := 0
  cy : ℚ := 0
  deriving DecidableEq, Repr

namespace Model

/-- Model.h:90-93: `cx = width / 2.0f / zoomLevel; cy = height / 2.0f / zoomLevel;` -/
def recalculateCenter (m : Model) : Model :=
  { m with cx := (m.width : ℚ) / 2 / m.zoomLevel
           cy := (m.height : ℚ) / 2 / m.zoomLevel }

/-- Model.h:13-16. -/
def setZoomLevel (m : Model) (zoomLevel : ℚ) : Model :=
  recalculateCenter { m with zoomLevel := zoomLevel }

/-- Model.h:23-27. -/
def setSize (m : Model) (width height : Int) : Model :=
  recalculateCenter { m with width := width, height := height }

/-- Model.h:33. -/
def getRotationAngle (m : Model) : ℚ := m.rotationAngle

/-- Model.h:39-41. -/
def setRotationAngle (m : Model) (rotationAngle : ℚ) : Model :=
  { m with rotationAngle := rotationAngle }

/-- Model.h:47. -/
def getZoomLevel (m : Model) : ℚ := m.zoomLevel

/-- Model.h:53. -/
def getShowTriangle (m : Model) : Bool := m.showTriangle

/-- Model.h:59. -/
def setShowTriangle (m : Model) (showTriangle : Bool) : Model :=
  { m with showTriangle := showTriangle }

/-- Model.h:65. -/
def getWidth (m : Model) : Int := m.width

/-- Model.h:71. -/
def getHeight (m : Model) : Int := m.height

/-- Model.h:77. -/
def getCx (m : Model) : ℚ := m.cx

/-- Model.h:83. -/
def getCy (m : Model) : ℚ := m.cy

end Model

/-- One call of a public mutator of `Model`. -/
inductive ModelOp where
  | setSize (width height : Int)
  | setZoomLevel (zoomLevel : ℚ)
  | setRotationAngle (rotationAngle : ℚ)
  | setShowTriangle (showTriangle : Bool)
  deriving DecidableEq, Repr

/-- Perform one mutator call on a `Model`. -/
def ModelOp.apply (m : Model) : ModelOp → Model
  | .setSize w h => m.setSize w h
  | .setZoomLevel z => m.setZoomLevel z
  | .setRotationAngle v => m.setRotationAngle v
  | .setShowTriangle b => m.setShowTriangle b

/-- Perform a sequence of mutator calls, first call first. -/
def Model.run (m : Model) (ops : List ModelOp) : Model :=
  ops.foldl ModelOp.apply m

/-- The center invariant of the data model: both derived coordinates agree with
the size and the zoom level currently stored. -/
def Model.Centered (m : Model) : Prop :=
  m.getCx = (m.getWidth : ℚ) / (2 * m.getZoomLevel) ∧
  m.getCy = (m.getHeight : ℚ) / (2 * m.getZoomLevel)

/-- Every `setZoomLevel` call of the sequence has a positive argument. -/
def PositiveZooms (ops : List ModelOp) : Prop :=
  ∀ z, ModelOp.setZoomLevel z ∈ ops → 0 < z

/-- The sequence contains a `setSize` or a `setZoomLevel` call. -/
def HasResize : List ModelOp → Bool
  | [] => false
  | .setSize _ _ :: _ => true
  | .setZoomLevel _ :: _ => true
  | _ :: ops => HasResize ops

/-! ## main.cpp: the calls a handler makes -/

/-- The symbolic OpenGL constants that main.cpp passes. -/
inductive GLenum where
  | GL_COLOR_BUFFER_BIT | GL_DEPTH_BUFFER_BIT
  | GL_TRIANGLES | GL_LINE_LOOP | GL_QUADS
  | GL_BLEND | GL_TEXTURE_2D | GL_SRC_ALPHA | GL_ONE_MINUS_SRC_ALPHA
  | GL_PROJECTION | GL_MODELVIEW
  | GL_TEXTURE_MIN_FILTER | GL_TEXTURE_MAG_FILTER | GL_TEXTURE_WRAP_S | GL_TEXTURE_WRAP_T
  | GL_LINEAR | GL_CLAMP_TO_EDGE | GL_RGBA | GL_UNSIGNED_BYTE
  deriving DecidableEq, Repr

/-- One call made by main.cpp to OpenGL, GLEW, wxWidgets or `std::cout`, with its
arguments. Calls whose only effect is the value they return (`glGetError`,
`glIsTexture`, `glGetIntegerv`, `fopen` and the libpng reader) are not recorded:
their results come from `LoadEnv`. -/
inductive Call where
  | glewInit
  | glClearColor (r g b a : ℚ)
  | glClear (mask : List GLenum)
  | glPushMatrix
  | glPopMatrix
  | glScalef (x y z : ℚ)
  | glTranslatef (x y z : ℚ)
  | glRotatef (angle x y z : ℚ)
  | glBegin (mode : GLenum)
  | glEnd
  | glColor3f (r g b : ℚ)
  | glColor4f (r g b a : ℚ)
  | glVertex2f (x y : ℚ)
  | glTexCoord2f (s t : ℚ)
  | glEnable (cap : GLenum)
  | glDisable (cap : GLenum)
  | glBlendFunc (sfactor dfactor : GLenum)
  | glGenTextures (n : Nat)
  | glBindTexture (target : GLenum) (texture : Nat)
  | glTexParameteri (target pname param : GLenum)
  | glTexImage2D (target : GLenum) (level : Int) (internalformat : GLenum) (width height : Int)
      (border : Int) (format type : GLenum)
  | glViewport (x y width height : Int)
  | glMatrixMode (mode : GLenum)
  | glLoadIdentity
  | glOrtho (left right bottom top near far : ℚ)
  | SetCurrent
  | SwapBuffers
  | Refresh
  | Show (visible : Bool)
  | Layout
  | Skip
  | cout (text : String)
  | coutValue (text : String) (value : ℚ) (tail : String)
  deriving DecidableEq, Repr

/-- The call goes to OpenGL (its name starts with `gl`, GLEW set-up apart). -/
def Call.isGL : Call → Bool
  | .glewInit | .SetCurrent | .SwapBuffers | .Refresh | .Show _ | .Layout | .Skip
  | .cout _ | .coutValue _ _ _ => false
  | _ => true

/-- The call is `glVertex2f`. -/
def Call.isVertex : Call → Bool
  | .glVertex2f _ _ => true
  | _ => false

/-- The call is `glBegin`. -/
def Call.isBegin : Call → Bool
  | .glBegin _ => true
  | _ => false

/-- The call is `glGenTextures`. -/
def Call.isGenTextures : Call → Bool
  | .glGenTextures _ => true
  | _ => false

/-- Depth of the matrix stack after the calls, relative to the depth `d` before
them; `none` when a `glPopMatrix` has no matching earlier `glPushMatrix`. -/
def matrixDepth : List Call → Nat → Option Nat
  | [], d => some d
  | .glPushMatrix :: cs, d => matrixDepth cs (d + 1)
  | .glPopMatrix :: cs, d => if d = 0 then none else matrixDepth cs (d - 1)
  | _ :: cs, d => matrixDepth cs d

/-- The `<cmath>` functions and the constant `M_PI` used by `Circle::Render`, over
exact arithmetic. They are not part of the repository and are taken as given. -/
structure Libm where
  M_PI : ℚ
  cos : ℚ → ℚ
  sin : ℚ → ℚ

/-! ## main.cpp: scene items -/

/-- The three classes derived from `SceneItem` that the canvas puts in
`sceneItems` (main.cpp:69-115); `Render` is dispatched on the variant. -/
inductive SceneItem where
  | Triangle
  | Circle
  | Square
  deriving DecidableEq, Repr

/-- `Triangle::Render`, main.cpp:400-422. The Model is reached through
`canvas->model()`; it is passed in and returned. -/
def Triangle.Render (m : Model) : Model × List Call :=
  if !m.getShowTriangle then (m, [])
  else
    let cx := m.getCx
    let cy := m.getCy
    let size : ℚ := 50
    (m, [.glPushMatrix,
         .glTranslatef cx cy 0,
         .glRotatef m.getRotationAngle 0 0 1,
         .glBegin .GL_TRIANGLES,
         .glColor3f 1 0 0,
         .glVertex2f (-size) size,
         .glColor3f 0 1 0,
         .glVertex2f size size,
         .glColor3f 0 0 1,
         .glVertex2f 0 (-size),
         .glEnd,
         .glPopMatrix])

/-- The `for` loop of `Circle::Render`, main.cpp:433-438, from the value `i` of the
loop counter on: the body runs while `i <= circleSegments`. `fuel` bounds the
number of iterations still allowed. -/
def Circle.loop (L : Libm) (cx cy circleRadius : ℚ) (circleSegments : Nat) :
    Nat → Nat → List Call
  | 0, _ => []
  | fuel + 1, i =>
    if i ≤ circleSegments then
      let angle := 2 * L.M_PI * (i : ℚ) / (circleSegments : ℚ)
      let x := cx + circleRadius * L.cos angle
      let y := cy + circleRadius * L.sin angle
      .glVertex2f x y :: Circle.loop L cx cy circleRadius circleSegments fuel (i + 1)
    else []

/-- `Circle::Render`, main.cpp:424-440. The loop is given `circleSegments + 2`
iterations of fuel, one more than it can use. -/
def Circle.Render (L : Libm) (m : Model) : Model × List Call :=
  let distanceFromCenterPx : ℚ := 100
  let circleRadius : ℚ := 30
  let cx := m.getCx - distanceFromCenterPx
  let cy := m.getCy - distanceFromCenterPx
  let circleSegments : Nat := 100
  (m, [.glColor3f 1 1 0, .glBegin .GL_LINE_LOOP] ++
      Circle.loop L cx cy circleRadius circleSegments (circleSegments + 2) 0 ++
      [.glEnd])

/-- `Square::Render`, main.cpp:442-455. -/
def Square.Render (m : Model) : Model × List Call :=
  let distanceFromCenterPx : ℚ := 100
  let squareSize : ℚ := 40
  let cx := m.getCx + distanceFromCenterPx
  let cy := m.getCy + distanceFromCenterPx
  (m, [.glColor3f 1 0 0,
       .glBegin .GL_LINE_LOOP,
       .glVertex2f (cx - squareSize / 2) (cy - squareSize / 2),
       .glVertex2f (cx + squareSize / 2) (cy - squareSize / 2),
       .glVertex2f (cx + squareSize / 2) (cy + squareSize / 2),
       .glVertex2f (cx - squareSize / 2) (cy + squareSize / 2),
       .glEnd])

/-- Virtual dispatch of `SceneItem::Render`. -/
def SceneItem.Render (L : Libm) : SceneItem → Model → Model × List Call
  | .Triangle, m => Triangle.Render m
  | .Circle, m => Circle.Render L m
  | .Square, m => Square.Render m

/-! ## main.cpp: the overlay button -/

/-- Data members of class `Button` (main.cpp:160-168). The `onClick` closure is
not stored: `CheckClick` takes the bound action as an argument. -/
structure Button where
  x : ℚ
  y : ℚ
  width : ℚ
  height : ℚ
  textureLoaded : Bool := false
  buttonTexture : Nat := 0
  deriving DecidableEq, Repr

/-- Results of the external calls made by one run of `Button::LoadButtonTexture`. -/
structure LoadEnv where
  /-- the name `glGenTextures` stores in `buttonTexture` -/
  genTexture : Nat
  /-- result of `glGetError`; 0 is `GL_NO_ERROR` -/
  glGetError : Nat
  /-- `fopen` returned a non-null file -/
  fopen : Bool
  /-- `png_create_read_struct` returned a non-null struct -/
  png_create_read_struct : Bool
  /-- `png_create_info_struct` returned a non-null struct -/
  png_create_info_struct : Bool
  /-- libpng reported an error while reading: `setjmp(png_jmpbuf(png))` is
  re-entered with a non-zero value -/
  pngErrorJump : Bool
  /-- `png_get_image_width` -/
  imageWidth : Int
  /-- `png_get_image_height` -/
  imageHeight : Int
  /-- result of `glIsTexture(buttonTexture)` -/
  glIsTexture : Bool
  /-- value `glGetIntegerv(GL_TEXTURE_BINDING_2D, ..)` stores in `boundTexture` -/
  boundTexture : Int
  deriving DecidableEq, Repr

/-- The conversion `static_cast<GLint>(buttonTexture)` of a 32-bit unsigned name to a
32-bit signed integer (main.cpp:604). -/
def toGLint (n : Nat) : Int :=
  ((n + 2 ^ 31) % 2 ^ 32 : Nat) - 2 ^ 31

/-- Round to the nearest integer, a tie going to the even neighbour. -/
def roundHalfEven (r : ℚ) : Int :=
  let f : Int := ⌊r⌋
  if r - f < 1 / 2 then f
  else if r - f > 1 / 2 then f + 1
  else if f % 2 = 0 then f else f + 1

/-- The value of type `float` (IEEE 754 binary32) nearest to `q`, a tie going to
the even significand: the result of a `float` operation whose exact result is `q`.
The significand has 24 bits; below 2^-126 the spacing stays 2^-149. The exponent
is not capped above: a result beyond the largest finite `float` stands for the
infinity of its sign, and compares with every finite `float` as that infinity
does. -/
def roundFloat32 (q : ℚ) : ℚ :=
  if q = 0 then 0
  else
    let e : Int := max (Int.log 2 |q|) (-126)
    let quantum : ℚ := 2 ^ (e - 23)
    (roundHalfEven (q / quantum) : ℚ) * quantum

namespace Button

/-- `Button::Render`, main.cpp:461-486. -/
def Render (b : Button) : Button × List Call :=
  if b.textureLoaded then
    (b, [.glEnable .GL_BLEND,
         .glBlendFunc .GL_SRC_ALPHA .GL_ONE_MINUS_SRC_ALPHA,
         .glEnable .GL_TEXTURE_2D,
         .glBindTexture .GL_TEXTURE_2D b.buttonTexture,
         .glColor4f 1 1 1 1,
         .glBegin .GL_QUADS,
         .glTexCoord2f 0 0,
         .glVertex2f b.x b.y,
         .glTexCoord2f 1 0,
         .glVertex2f (b.x + b.width) b.y,
         .glTexCoord2f 1 1,
         .glVertex2f (b.x + b.width) (b.y + b.height),
         .glTexCoord2f 0 1,
         .glVertex2f b.x (b.y + b.height),
         .glEnd,
         .glDisable .GL_TEXTURE_2D])
  else
    (b, [.cout "Button::Render textureLoaded == false"])

/-- `Button::LoadButtonTexture`, main.cpp:488-611: the returned flag, the button
afterwards and the calls made. -/
def LoadButtonTexture (b : Button) (filename : String) (env : LoadEnv) :
    Bool × Button × List Call :=
  let b1 := { b with buttonTexture := env.genTexture }
  let gen : List Call := [.glGenTextures 1, .glBindTexture .GL_TEXTURE_2D b1.buttonTexture]
  if env.glGetError ≠ 0 then
    (false, b1, gen ++ [.coutValue "OpenGL error after glGenTextures: " env.glGetError ""])
  else
    let params : List Call :=
      [.glTexParameteri .GL_TEXTURE_2D .GL_TEXTURE_MIN_FILTER .GL_LINEAR,
       .glTexParameteri .GL_TEXTURE_2D .GL_TEXTURE_MAG_FILTER .GL_LINEAR,
       .glTexParameteri .GL_TEXTURE_2D .GL_TEXTURE_WRAP_S .GL_CLAMP_TO_EDGE,
       .glTexParameteri .GL_TEXTURE_2D .GL_TEXTURE_WRAP_T .GL_CLAMP_TO_EDGE]
    if !env.fopen then
      (false, b1, gen ++ params ++ [.cout ("Failed to open file: " ++ filename)])
    else if !env.png_create_read_struct then
      (false, b1, gen ++ params ++ [.cout "Failed to create png read struct"])
    else if !env.png_create_info_struct then
      (false, b1, gen ++ params ++ [.cout "Failed to create png info struct"])
    else if env.pngErrorJump then
      (false, b1, gen ++ params ++ [.cout "Error during png creation"])
    else
      let upload : List Call :=
        [.glTexImage2D .GL_TEXTURE_2D 0 .GL_RGBA env.imageWidth env.imageHeight 0 .GL_RGBA
          .GL_UNSIGNED_BYTE]
      if !env.glIsTexture then
        (false, b1, gen ++ params ++ upload ++ [.cout "Texture is not valid!"])
      else if env.boundTexture ≠ toGLint b1.buttonTexture then
        (false, b1, gen ++ params ++ upload ++ [.cout "Texture is not bound correctly!"])
      else
        (true, { b1 with textureLoaded := true }, gen ++ params ++ upload)

/-- `Button::Initialize`, main.cpp:457-459; the returned flag is discarded. -/
def Initialize (b : Button) (env : LoadEnv) : Button × List Call :=
  (b.LoadButtonTexture "button.png" env).2

/-- `Button::CheckClick`, main.cpp:613-617. `onClick` is the bound action; it acts
on the state `s` that its closure captured. The sums `x + width` and `y + height`
are `float` additions: the comparison is against their rounded values. -/
def CheckClick {σ : Type} (b : Button) (onClick : σ → σ × List Call) (mouseX mouseY : ℚ)
    (s : σ) : σ × List Call :=
  if mouseX > b.x ∧ mouseX < roundFloat32 (b.x + b.width) ∧
      mouseY > b.y ∧ mouseY < roundFloat32 (b.y + b.height) then
    onClick s
  else (s, [])

/-- A bound action that only counts how often it has been invoked. -/
def countingAction (n : Nat) : Nat × List Call := (n + 1, [])

/-- Number of invocations of the bound action made by one `CheckClick`. -/
def invocations (b : Button) (mouseX mouseY : ℚ) : Nat :=
  (b.CheckClick countingAction mouseX mouseY 0).1

end Button

/-! ## main.cpp: the canvas -/

/-- Data members of class `OpenGLCanvas` (main.cpp:228-244) that its handlers read
or write; the defaults are the state left by the constructor (main.cpp:271-334). -/
structure OpenGLCanvas where
  isOpenGLInitialized : Bool := false
  isControlPanelVisible : Bool := false
  m_model : Model := {}
  sceneItems : List SceneItem := [.Triangle, .Circle, .Square]
  toggleButton : Button := { x := 10, y := 10, width := 40, height := 40 }
  deriving DecidableEq, Repr

/-- An event delivered to the canvas or to one of the controls of its panel,
with the values the handler reads from the toolkit. -/
inductive Event where
  /-- wxEVT_PAINT; `env` answers the external calls of the texture load, should
  this paint run it -/
  | paint (env : LoadEnv)
  /-- wxEVT_SIZE; `GetClientSize` reports `width` and `height` -/
  | size (width height : Int)
  /-- wxEVT_LEFT_DOWN at `event.GetPosition()` -/
  | leftDown (x y : Int)
  /-- wxEVT_SLIDER of the rotation slider; `GetValue()` is `value` -/
  | rotationSlider (value : Int)
  /-- wxEVT_SLIDER of the zoom slider; `GetValue()` is `value` -/
  | zoomSlider (value : Int)
  /-- wxEVT_CHECKBOX; `IsChecked()` is `checked` -/
  | checkbox (checked : Bool)
  deriving DecidableEq, Repr

/-- The event is a paint event. -/
def Event.isPaint : Event → Bool
  | .paint _ => true
  | _ => false

namespace OpenGLCanvas

/-- The loop over `sceneItems` of `RenderScene`, main.cpp:384-386. -/
def renderItems (L : Libm) : List SceneItem → Model → Model × List Call
  | [], m => (m, [])
  | item :: items, m =>
    let r := item.Render L m
    let rs := renderItems L items r.1
    (rs.1, r.2 ++ rs.2)

/-- `OpenGLCanvas::RenderScene`, main.cpp:377-392. -/
def RenderScene (L : Libm) (c : OpenGLCanvas) : OpenGLCanvas × List Call :=
  let head : List Call :=
    [.glClearColor (1 / 10) (1 / 10) (1 / 10) 1,
     .glClear [.GL_COLOR_BUFFER_BIT],
     .glPushMatrix,
     .glScalef c.m_model.getZoomLevel c.m_model.getZoomLevel 1]
  let items := renderItems L c.sceneItems c.m_model
  let button := c.toggleButton.Render
  ({ c with m_model := items.1, toggleButton := button.1 },
    head ++ items.2 ++ [.glPopMatrix] ++ button.2)

/-- `OpenGLCanvas::ToggleControlPanel`, main.cpp:394-398. -/
def ToggleControlPanel (c : OpenGLCanvas) : OpenGLCanvas × List Call :=
  let c1 := { c with isControlPanelVisible := !c.isControlPanelVisible }
  (c1, [.Show c1.isControlPanelVisible, .Layout])

/-- `OpenGLCanvas::OnPaint`, main.cpp:338-352. The construction of the local
`wxPaintDC` is not recorded as a call. -/
def OnPaint (L : Libm) (c : OpenGLCanvas) (env : LoadEnv) : OpenGLCanvas × List Call :=
  let head : List Call := [.SetCurrent, .glClear [.GL_COLOR_BUFFER_BIT, .GL_DEPTH_BUFFER_BIT]]
  let init : OpenGLCanvas × List Call :=
    if !c.isOpenGLInitialized then
      let b := c.toggleButton.Initialize env
      ({ c with isOpenGLInitialized := true, toggleButton := b.1 }, [.glewInit] ++ b.2)
    else (c, [])
  let scene := RenderScene L init.1
  (scene.1, head ++ init.2 ++ scene.2 ++ [.SwapBuffers])

/-- `OpenGLCanvas::OnSize`, main.cpp:354-370. -/
def OnSize (c : OpenGLCanvas) (width height : Int) : OpenGLCanvas × List Call :=
  if c.isOpenGLInitialized then
    ({ c with m_model := c.m_model.setSize width height },
      [.glViewport 0 0 width height,
       .glMatrixMode .GL_PROJECTION,
       .glLoadIdentity,
       .glOrtho 0 width height 0 (-1) 1,
       .glMatrixMode .GL_MODELVIEW,
       .glLoadIdentity,
       .Skip])
  else (c, [.Skip])

/-- `OpenGLCanvas::OnMouseClick`, main.cpp:372-375; the action bound to the button
by the constructor is `ToggleControlPanel` (main.cpp:332-333). The `int`
coordinates of `pos` are converted to the `float` parameters of `CheckClick`. -/
def OnMouseClick (c : OpenGLCanvas) (x y : Int) : OpenGLCanvas × List Call :=
  c.toggleButton.CheckClick ToggleControlPanel (roundFloat32 (x : ℚ)) (roundFloat32 (y : ℚ)) c

/-- Handler of the rotation slider, main.cpp:307-312. -/
def onRotationSlider (c : OpenGLCanvas) (value : Int) : OpenGLCanvas × List Call :=
  ({ c with m_model := c.m_model.setRotationAngle (value : ℚ) },
    [.coutValue "Rotation : " (value : ℚ) "Â°", .Refresh])

/-- Handler of the zoom slider, main.cpp:314-319. -/
def onZoomSlider (c : OpenGLCanvas) (sliderValue : Int) : OpenGLCanvas × List Call :=
  let value : ℚ := (sliderValue : ℚ) / 100
  ({ c with m_model := c.m_model.setZoomLevel value },
    [.coutValue "Zoom : " value "x", .Refresh])

/-- Handler of the checkbox, main.cpp:321-324. -/
def onCheckbox (c : OpenGLCanvas) (checked : Bool) : OpenGLCanvas × List Call :=
  ({ c with m_model := c.m_model.setShowTriangle checked }, [.Refresh])

/-- Dispatch of one event to its handler, as bound in the constructor
(main.cpp:275-277, 307-324). -/
def handle (L : Libm) (c : OpenGLCanvas) : Event → OpenGLCanvas × List Call
  | .paint env => OnPaint L c env
  | .size w h => OnSize c w h
  | .leftDown x y => OnMouseClick c x y
  | .rotationSlider v => onRotationSlider c v
  | .zoomSlider v => onZoomSlider c v
  | .checkbox b => onCheckbox c b

/-- Deliver the events in order; the calls of all handlers are concatenated. -/
def run (L : Libm) : OpenGLCanvas → List Event → OpenGLCanvas × List Call
  | c, [] => (c, [])
  | c, e :: es =>
    let r := handle L c e
    let rs := run L r.1 es
    (rs.1, r.2 ++ rs.2)

end OpenGLCanvas

/-- Number of invocations of `Button::Initialize` visible in a list of calls:
`glGenTextures` is called by `Button::LoadButtonTexture` only, once per run and
before any test, and `LoadButtonTexture` is called by `Initialize` only. -/
def initializeCalls (cs : List Call) : Nat :=
  cs.countP Call.isGenTextures

/-- A sample of the `<cmath>` functions for evaluating the definitions on
concrete inputs: truncated power series and 355/113. -/
def sampleLibm : Libm where
  M_PI := 355 / 113
  cos := fun a => 1 - a ^ 2 / 2
  sin := fun a => a - a ^ 3 / 6

/-- A sample outcome of the external calls of the texture load in which every call
succeeds, for a 64x64 image and texture name 1. -/
def sampleLoadEnv : LoadEnv where
  genTexture := 1
  glGetError := 0
  fopen := true
  png_create_read_struct := true
  png_create_info_struct := true
  pngErrorJump := false
  imageWidth := 64
  imageHeight := 64
  glIsTexture := true
  boundTexture := 1

/-- A sample Model with the triangle hidden: rotation 45 degrees, zoom 2, view
640x480 and the matching center. -/
def hiddenModel : Model :=
  { rotationAngle := 45, zoomLevel := 2, showTriangle := false, width := 640, height := 480,
    cx := 160, cy := 120 }

/-- The assumption on the toolkit: every value reported by the zoom slider lies
in the range 10..300 it was constructed with (main.cpp:287-288). -/
def ZoomSliderInRange (evs : List Event) : Prop :=
  ∀ v : Int, Event.zoomSlider v ∈ evs → 10 ≤ v ∧ v ≤ 300

/-- The zoom level lies between 0.10 and 3.00. -/
def Model.ZoomInRange (m : Model) : Prop :=
  1 / 10 ≤ m.getZoomLevel ∧ m.getZoomLevel ≤ 3

/-- A sample session: first paint, resize, zoom to the lower end of the slider,
rotate, hide the triangle, click the button, zoom to the upper end. -/
def sampleSession : List Event :=
  [.paint sampleLoadEnv, .size 640 480, .zoomSlider 10, .rotationSlider 90, .checkbox false,
   .leftDown 30 30, .zoomSlider 300]

/-- A button whose right edge is not a `float`: at x = 0.5 and 2^24 wide, the
sum 16777216.5 lies between the neighbouring `float` values 16777216 and
16777218. -/
def wideButton : Button := { x := 1 / 2, y := 0, width := 16777216, height := 10 }

/-! ## Theorems about the Model -/

/-- Recomputing the center establishes the center invariant. -/
theorem Model.recalculateCenter_centered (m : Model) : m.recalculateCenter.Centered := by
  constructor <;>
    simp [Model.recalculateCenter, Model.getCx, Model.getCy, Model.getWidth, Model.getHeight,
      Model.getZoomLevel, div_div]

/-- Each mutator call keeps the center invariant. -/
theorem ModelOp.apply_centered (m : Model) (op : ModelOp) (h : m.Centered) :
    (ModelOp.apply m op).Centered := by
  cases op with
  | setSize w h => exact Model.recalculateCenter_centered _
  | setZoomLevel z => exact Model.recalculateCenter_centered _
  | setRotationAngle v => exact h
  | setShowTriangle b => exact h

/-- A sequence of mutator calls keeps the center invariant. -/
theorem Model.run_centered (ops : List ModelOp) :
    ∀ m : Model, m.Centered → (m.run ops).Centered := by
  induction ops with
  | nil => intro m h; exact h
  | cons op ops ih =>
    intro m h
    exact ih (ModelOp.apply m op) (ModelOp.apply_centered m op h)

/-- The default-constructed Model satisfies the center invariant. -/
theorem Model.default_centered : ({} : Model).Centered := by
  constructor <;> simp [Model.getCx, Model.getCy, Model.getWidth, Model.getHeight]

/-- C1. In every Model reached from the default-constructed one by a finite
sequence of mutator calls whose zoom arguments are all positive and which
contains a `setSize` or `setZoomLevel` call, `getCx = getWidth / (2 * getZoomLevel)`
and `getCy = getHeight / (2 * getZoomLevel)`; and the scenario 640x480 at zoom 1
gives (320,240), then zoom 2 gives (160,120), then 800x600 gives (200,150). -/
theorem Model.center_invariant :
    (∀ ops : List ModelOp, PositiveZooms ops → HasResize ops = true →
      (({} : Model).run ops).getCx =
          ((({} : Model).run ops).getWidth : ℚ) / (2 * (({} : Model).run ops).getZoomLevel) ∧
      (({} : Model).run ops).getCy =
          ((({} : Model).run ops).getHeight : ℚ) / (2 * (({} : Model).run ops).getZoomLevel)) ∧
    ((({} : Model).setSize 640 480).getCx = 320 ∧
      (({} : Model).setSize 640 480).getCy = 240) ∧
    (((({} : Model).setSize 640 480).setZoomLevel 2).getCx = 160 ∧
      ((({} : Model).setSize 640 480).setZoomLevel 2).getCy = 120) ∧
    ((((({} : Model).setSize 640 480).setZoomLevel 2).setSize 800 600).getCx = 200 ∧
      (((({} : Model).setSize 640 480).setZoomLevel 2).setSize 800 600).getCy = 150) := by
  refine ⟨fun ops _ _ => Model.run_centered ops _ Model.default_centered, ?_, ?_, ?_⟩ <;>
    norm_num [Model.setSize, Model.setZoomLevel, Model.recalculateCenter, Model.getCx,
      Model.getCy]

/-- The invariant of C1 at the sequence setSize 640 480, setZoomLevel 2,
setRotationAngle 90, setSize 800 600. -/
theorem Model.center_invariant_witness :
    PositiveZooms [.setSize 640 480, .setZoomLevel 2, .setRotationAngle 90, .setSize 800 600] ∧
    HasResize [.setSize 640 480, .setZoomLevel 2, .setRotationAngle 90, .setSize 800 600] = true ∧
    (({} : Model).run
      [.setSize 640 480, .setZoomLevel 2, .setRotationAngle 90, .setSize 800 600]).getCx =
      ((({} : Model).run
        [.setSize 640 480, .setZoomLevel 2, .setRotationAngle 90, .setSize 800 600]).getWidth : ℚ) /
      (2 * (({} : Model).run
        [.setSize 640 480, .setZoomLevel 2, .setRotationAngle 90, .setSize 800 600]).getZoomLevel) :=
  have hz : PositiveZooms
      [.setSize 640 480, .setZoomLevel 2, .setRotationAngle 90, .setSize 800 600] := by
    intro z hz
    simp at hz
    subst hz
    norm_num
  ⟨hz, rfl, (Model.center_invariant.1 _ hz rfl).1⟩

/-- C7. `setRotationAngle` changes only `rotationAngle`, `setShowTriangle` changes
only `showTriangle`; `setZoomLevel` leaves width, height, rotation angle and the
visibility flag alone; `setSize` leaves zoom level, rotation angle and the
visibility flag alone. Hence only `setSize` and `setZoomLevel` can change the
center. -/
theorem Model.setters_frame (m : Model) (v z : ℚ) (b : Bool) (w h : Int) :
    (m.setRotationAngle v = { m with rotationAngle := v } ∧
      (m.setRotationAngle v).getZoomLevel = m.getZoomLevel ∧
      (m.setRotationAngle v).getShowTriangle = m.getShowTriangle ∧
      (m.setRotationAngle v).getWidth = m.getWidth ∧
      (m.setRotationAngle v).getHeight = m.getHeight ∧
      (m.setRotationAngle v).getCx = m.getCx ∧
      (m.setRotationAngle v).getCy = m.getCy) ∧
    (m.setShowTriangle b = { m with showTriangle := b } ∧
      (m.setShowTriangle b).getZoomLevel = m.getZoomLevel ∧
      (m.setShowTriangle b).getRotationAngle = m.getRotationAngle ∧
      (m.setShowTriangle b).getWidth = m.getWidth ∧
      (m.setShowTriangle b).getHeight = m.getHeight ∧
      (m.setShowTriangle b).getCx = m.getCx ∧
      (m.setShowTriangle b).getCy = m.getCy) ∧
    ((m.setZoomLevel z).getWidth = m.getWidth ∧
      (m.setZoomLevel z).getHeight = m.getHeight ∧
      (m.setZoomLevel z).getRotationAngle = m.getRotationAngle ∧
      (m.setZoomLevel z).getShowTriangle = m.getShowTriangle) ∧
    ((m.setSize w h).getZoomLevel = m.getZoomLevel ∧
      (m.setSize w h).getRotationAngle = m.getRotationAngle ∧
      (m.setSize w h).getShowTriangle = m.getShowTriangle) ∧
    (∀ op : ModelOp,
      (ModelOp.apply m op).getCx ≠ m.getCx ∨ (ModelOp.apply m op).getCy ≠ m.getCy →
      (∃ w1 h1, op = .setSize w1 h1) ∨ (∃ z1, op = .setZoomLevel z1)) := by
  refine ⟨⟨rfl, rfl, rfl, rfl, rfl, rfl, rfl⟩, ⟨rfl, rfl, rfl, rfl, rfl, rfl, rfl⟩,
    ⟨rfl, rfl, rfl, rfl⟩, ⟨rfl, rfl, rfl⟩, ?_⟩
  intro op hop
  cases op with
  | setSize w1 h1 => exact Or.inl ⟨w1, h1, rfl⟩
  | setZoomLevel z1 => exact Or.inr ⟨z1, rfl⟩
  | setRotationAngle v1 => exact absurd hop (by simp [ModelOp.apply, Model.setRotationAngle, Model.getCx, Model.getCy])
  | setShowTriangle b1 => exact absurd hop (by simp [ModelOp.apply, Model.setShowTriangle, Model.getCx, Model.getCy])

/-- The last clause of C7 at a call that does move the center: resizing the
default Model to 640x480 changes `cx`, and the call is a `setSize`. -/
theorem Model.setters_frame_witness :
    (ModelOp.apply ({} : Model) (.setSize 640 480)).getCx ≠ ({} : Model).getCx ∧
    ((∃ w1 h1, ModelOp.setSize 640 480 = .setSize w1 h1) ∨
      (∃ z1, ModelOp.setSize 640 480 = .setZoomLevel z1)) :=
  have hne : (ModelOp.apply ({} : Model) (.setSize 640 480)).getCx ≠ ({} : Model).getCx := by
    norm_num [ModelOp.apply, Model.setSize, Model.recalculateCenter, Model.getCx]
  ⟨hne, (Model.setters_frame {} 0 1 true 0 0).2.2.2.2 (.setSize 640 480) (Or.inl hne)⟩

/-- C8. Calling `setRotationAngle v` twice in a row gives the same Model as calling
it once, and `getRotationAngle` returns `v` in both cases. -/
theorem Model.setRotationAngle_idempotent (m : Model) (v : ℚ) :
    (m.setRotationAngle v).setRotationAngle v = m.setRotationAngle v ∧
    (m.setRotationAngle v).getRotationAngle = v ∧
    ((m.setRotationAngle v).setRotationAngle v).getRotationAngle = v :=
  ⟨rfl, rfl, rfl⟩

/-! ## Theorems about the overlay button -/

/-- A rational less than a half above an integer rounds to that integer. -/
theorem roundHalfEven_eq_of_lt (r : ℚ) (n : Int) (h1 : (n : ℚ) ≤ r) (h2 : r - n < 1 / 2) :
    roundHalfEven r = n := by
  have hfloor : ⌊r⌋ = n := Int.floor_eq_iff.2 ⟨h1, by linarith⟩
  simp only [roundHalfEven, hfloor]
  rw [if_pos h2]

/-- Evaluation of `roundFloat32` at a value of the binade 2^k <= |q| < 2^(k+1) of a
normal exponent k: the value is rounded to a multiple of 2^(k-23). -/
theorem roundFloat32_eq_of_binade (q : ℚ) (k n : Int) (hlo : (2 : ℚ) ^ k ≤ |q|)
    (hhi : |q| < (2 : ℚ) ^ (k + 1)) (hk : -126 ≤ k)
    (hn : roundHalfEven (q / 2 ^ (k - 23)) = n) :
    roundFloat32 q = (n : ℚ) * 2 ^ (k - 23) := by
  have hpos : 0 < |q| := lt_of_lt_of_le (zpow_pos (by norm_num) k) hlo
  have hq : q ≠ 0 := abs_pos.1 hpos
  have hlog : Int.log 2 |q| = k := by
    apply le_antisymm
    · have h := (Int.lt_zpow_iff_log_lt (R := ℚ) (b := 2) (by norm_num) hpos).1
        (by exact_mod_cast hhi)
      omega
    · exact (Int.zpow_le_iff_le_log (R := ℚ) (b := 2) (by norm_num) hpos).1
        (by exact_mod_cast hlo)
  simp only [roundFloat32, if_neg hq, hlog, max_eq_left hk, hn]

/-- The `float` sum 10 + 40 of the canvas button is exact. -/
theorem roundFloat32_fifty : roundFloat32 (10 + 40) = 10 + 40 := by
  rw [roundFloat32_eq_of_binade (10 + 40) 5 13107200 (by norm_num [abs_of_pos])
    (by norm_num [abs_of_pos]) (by norm_num)
    (roundHalfEven_eq_of_lt _ _ (by norm_num) (by norm_num))]
  norm_num

/-- The conversion of the pixel coordinate 10 to `float` is exact. -/
theorem roundFloat32_ten : roundFloat32 ((10 : Int) : ℚ) = 10 := by
  rw [roundFloat32_eq_of_binade ((10 : Int) : ℚ) 3 10485760 (by norm_num [abs_of_pos])
    (by norm_num [abs_of_pos]) (by norm_num)
    (roundHalfEven_eq_of_lt _ _ (by norm_num) (by norm_num))]
  norm_num

/-- The conversion of the pixel coordinate 30 to `float` is exact. -/
theorem roundFloat32_thirty : roundFloat32 ((30 : Int) : ℚ) = 30 := by
  rw [roundFloat32_eq_of_binade ((30 : Int) : ℚ) 4 15728640 (by norm_num [abs_of_pos])
    (by norm_num [abs_of_pos]) (by norm_num)
    (roundHalfEven_eq_of_lt _ _ (by norm_num) (by norm_num))]
  norm_num

/-- The conversion of the pixel coordinate 50 to `float` is exact. -/
theorem roundFloat32_fifty_pixel : roundFloat32 ((50 : Int) : ℚ) = 50 := by
  rw [roundFloat32_eq_of_binade ((50 : Int) : ℚ) 5 13107200 (by norm_num [abs_of_pos])
    (by norm_num [abs_of_pos]) (by norm_num)
    (roundHalfEven_eq_of_lt _ _ (by norm_num) (by norm_num))]
  norm_num

/-- The `float` sum 0.5 + 16777216 is 16777216: the spacing of `float` values
from 2^24 on is 2. -/
theorem roundFloat32_wide : roundFloat32 (1 / 2 + 16777216) = 16777216 := by
  rw [roundFloat32_eq_of_binade (1 / 2 + 16777216) 24 8388608 (by norm_num [abs_of_pos])
    (by norm_num [abs_of_pos]) (by norm_num)
    (roundHalfEven_eq_of_lt _ _ (by norm_num) (by norm_num))]
  norm_num

/-- The `float` sum 0 + 10 is exact. -/
theorem roundFloat32_zero_add_ten : roundFloat32 (0 + 10) = 10 := by
  rw [roundFloat32_eq_of_binade (0 + 10) 3 10485760 (by norm_num [abs_of_pos])
    (by norm_num [abs_of_pos]) (by norm_num)
    (roundHalfEven_eq_of_lt _ _ (by norm_num) (by norm_num))]
  norm_num

/-- The number of invocations made by `CheckClick`, from its test. -/
theorem Button.invocations_eq_ite (b : Button) (x y : ℚ) :
    b.invocations x y =
      if b.x < x ∧ x < roundFloat32 (b.x + b.width) ∧
          b.y < y ∧ y < roundFloat32 (b.y + b.height) then 1 else 0 := by
  simp only [Button.invocations, Button.CheckClick, gt_iff_lt]
  split_ifs <;> rfl

/-- C2, as stated, fails where the `float` sum `x + width` is rounded: for the
button at (0.5, 0) of size 16777216 x 10 the click (16777216, 5) satisfies
bx < x < bx+bw and by < y < by+bh, yet `CheckClick` does not invoke the action,
because the code compares x with the rounded sum 16777216 (the sum 0 + 10 of the
other axis is exact). -/
theorem Button.CheckClick_rounded_edge :
    (wideButton.x < 16777216 ∧ (16777216 : ℚ) < wideButton.x + wideButton.width ∧
      wideButton.y < 5 ∧ (5 : ℚ) < wideButton.y + wideButton.height) ∧
    roundFloat32 (wideButton.x + wideButton.width) = 16777216 ∧
    roundFloat32 (wideButton.y + wideButton.height) = 10 ∧
    wideButton.invocations 16777216 5 = 0 := by
  refine ⟨by norm_num [wideButton], ?_, ?_, ?_⟩
  · simp only [wideButton, roundFloat32_wide]
  · simp only [wideButton, roundFloat32_zero_add_ten]
  rw [Button.invocations_eq_ite, if_neg]
  intro h
  have hx := h.2.1
  simp only [wideButton, roundFloat32_wide] at hx
  exact lt_irrefl _ hx

/-- C2, amended. `CheckClick` invokes the bound action exactly once when
bx < x < fl(bx+bw) and by < y < fl(by+bh), where fl is the `float` sum as the code
computes it, and not at all otherwise (boundaries excluded), whatever the
`textureLoaded` flag; whenever the two sums are exact this is bx < x < bx+bw and
by < y < by+bh. For the button of the canvas at (10,10,40,40), whose sums are
exact, a click at (30,30) invokes the action (the control panel is toggled),
clicks at (10,10) and (50,50) do not. -/
theorem Button.CheckClick_hit_test :
    (∀ (b : Button) (x y : ℚ),
      b.invocations x y =
        if b.x < x ∧ x < roundFloat32 (b.x + b.width) ∧
            b.y < y ∧ y < roundFloat32 (b.y + b.height) then 1 else 0) ∧
    (∀ (σ : Type) (b : Button) (onClick : σ → σ × List Call) (x y : ℚ) (s : σ),
      b.CheckClick onClick x y s =
        if b.x < x ∧ x < roundFloat32 (b.x + b.width) ∧
            b.y < y ∧ y < roundFloat32 (b.y + b.height) then onClick s
        else (s, [])) ∧
    (∀ (b : Button) (x y : ℚ),
      roundFloat32 (b.x + b.width) = b.x + b.width →
      roundFloat32 (b.y + b.height) = b.y + b.height →
      b.invocations x y =
        if b.x < x ∧ x < b.x + b.width ∧ b.y < y ∧ y < b.y + b.height then 1 else 0) ∧
    (({} : OpenGLCanvas).toggleButton = { x := 10, y := 10, width := 40, height := 40 } ∧
      ({} : OpenGLCanvas).toggleButton.invocations 30 30 = 1 ∧
      ({} : OpenGLCanvas).toggleButton.invocations 10 10 = 0 ∧
      ({} : OpenGLCanvas).toggleButton.invocations 50 50 = 0 ∧
      ({} : OpenGLCanvas).OnMouseClick 30 30 = ({} : OpenGLCanvas).ToggleControlPanel ∧
      ({} : OpenGLCanvas).OnMouseClick 10 10 = ({}, []) ∧
      ({} : OpenGLCanvas).OnMouseClick 50 50 = ({}, [])) := by
  have hcount := Button.invocations_eq_ite
  have h50 : roundFloat32 (10 + 40) = 50 := by
    rw [roundFloat32_fifty]
    norm_num
  refine ⟨hcount, ?_, ?_, rfl, ?_, ?_, ?_, ?_, ?_, ?_⟩
  · intro σ b onClick x y s
    simp only [Button.CheckClick, gt_iff_lt]
  · intro b x y hw hh
    rw [hcount, hw, hh]
  · rw [hcount]
    simp only [h50]
    norm_num
  · rw [hcount]
    simp only [h50]
    norm_num
  · rw [hcount]
    simp only [h50]
    norm_num
  · simp only [OpenGLCanvas.OnMouseClick, Button.CheckClick, roundFloat32_thirty, h50]
    norm_num
  · simp only [OpenGLCanvas.OnMouseClick, Button.CheckClick, roundFloat32_ten, h50]
    norm_num
  · simp only [OpenGLCanvas.OnMouseClick, Button.CheckClick, roundFloat32_fifty_pixel, h50]
    norm_num

/-- The amended C2 at the button of the canvas, whose two sums 10 + 40 are exact,
and a click at (30,30): the action is invoked once. -/
theorem Button.CheckClick_hit_test_witness :
    roundFloat32 (10 + 40) = 10 + 40 ∧
    ({ x := 10, y := 10, width := 40, height := 40 } : Button).invocations 30 30 =
      if (10 : ℚ) < 30 ∧ (30 : ℚ) < 10 + 40 ∧ (10 : ℚ) < 30 ∧ (30 : ℚ) < 10 + 40 then 1 else 0 :=
  ⟨roundFloat32_fifty,
    Button.CheckClick_hit_test.2.2.1 { x := 10, y := 10, width := 40, height := 40 } 30 30
      roundFloat32_fifty roundFloat32_fifty⟩

/-- The texture load returns `true` exactly when it sets `textureLoaded`, for a
button whose flag was `false`. -/
theorem Button.LoadButtonTexture_flag (b : Button) (filename : String) (env : LoadEnv)
    (h : b.textureLoaded = false) :
    (b.LoadButtonTexture filename env).2.1.textureLoaded =
      (b.LoadButtonTexture filename env).1 := by
  unfold Button.LoadButtonTexture
  simp only []
  split_ifs <;> simp [h]

/-- A button whose texture is not loaded renders nothing but a console message. -/
theorem Button.Render_not_loaded (b : Button) (h : b.textureLoaded = false) :
    b.Render = (b, [.cout "Button::Render textureLoaded == false"]) := by
  simp [Button.Render, h]

/-- C4. For a button whose `textureLoaded` flag is `false` and every outcome of
the external calls, `LoadButtonTexture` returns `true` iff `textureLoaded` is `true`
afterwards; when it returns `false` the flag is still `false` and a following
`Render` makes no OpenGL call (it only writes its console message). -/
theorem Button.LoadButtonTexture_result (b : Button) (filename : String) (env : LoadEnv)
    (h : b.textureLoaded = false) :
    ((b.LoadButtonTexture filename env).1 = true ↔
      (b.LoadButtonTexture filename env).2.1.textureLoaded = true) ∧
    ((b.LoadButtonTexture filename env).1 = false →
      (b.LoadButtonTexture filename env).2.1.textureLoaded = false ∧
      (b.LoadButtonTexture filename env).2.1.Render.2 =
        [.cout "Button::Render textureLoaded == false"] ∧
      (b.LoadButtonTexture filename env).2.1.Render.2.filter Call.isGL = []) := by
  have hflag := Button.LoadButtonTexture_flag b filename env h
  refine ⟨by rw [hflag], fun hret => ?_⟩
  have hnot : (b.LoadButtonTexture filename env).2.1.textureLoaded = false := by
    rw [hflag, hret]
  refine ⟨hnot, ?_, ?_⟩
  · rw [Button.Render_not_loaded _ hnot]
  · rw [Button.Render_not_loaded _ hnot]
    rfl

/-- C4 at the button of the canvas when `button.png` cannot be opened: the load
returns `false`, the flag stays `false` and `Render` makes no OpenGL call. -/
theorem Button.LoadButtonTexture_result_witness :
    ({ x := 10, y := 10, width := 40, height := 40 } : Button).textureLoaded = false ∧
    (({ x := 10, y := 10, width := 40, height := 40 } : Button).LoadButtonTexture "button.png"
      { sampleLoadEnv with fopen := false }).1 = false ∧
    (({ x := 10, y := 10, width := 40, height := 40 } : Button).LoadButtonTexture "button.png"
      { sampleLoadEnv with fopen := false }).2.1.Render.2.filter Call.isGL = [] :=
  ⟨rfl, rfl,
    ((Button.LoadButtonTexture_result { x := 10, y := 10, width := 40, height := 40 }
      "button.png" { sampleLoadEnv with fopen := false } rfl).2 rfl).2.2⟩

/-! ## Theorems about the scene items -/

/-- C5. With `showTriangle = false`, `Triangle::Render` makes no call at all and
returns the Model as it was, whatever the other fields. -/
theorem Triangle.Render_hidden (m : Model) (h : m.showTriangle = false) :
    Triangle.Render m = (m, []) := by
  simp [Triangle.Render, Model.getShowTriangle, h]

/-- C5 at a hidden triangle rotated by 45 degrees in a 640x480 view at zoom 2. -/
theorem Triangle.Render_hidden_witness :
    hiddenModel.showTriangle = false ∧ Triangle.Render hiddenModel = (hiddenModel, []) :=
  ⟨rfl, Triangle.Render_hidden hiddenModel rfl⟩

/-- A `glVertex2f` is not a `glBegin`. -/
theorem Call.isVertex_not_isBegin (c : Call) (h : c.isVertex = true) : c.isBegin = false := by
  cases c <;> first | rfl | exact absurd h (by simp [Call.isVertex])

/-- A `glVertex2f` is not a `glGenTextures`. -/
theorem Call.isVertex_not_isGenTextures (c : Call) (h : c.isVertex = true) :
    c.isGenTextures = false := by
  cases c <;> first | rfl | exact absurd h (by simp [Call.isVertex])

/-- Every call made by the loop of `Circle::Render` is a `glVertex2f`. -/
theorem Circle.loop_isVertex (L : Libm) (cx cy r : ℚ) (n : Nat) :
    ∀ (fuel i : Nat) (c : Call), c ∈ Circle.loop L cx cy r n fuel i → c.isVertex = true := by
  intro fuel
  induction fuel with
  | zero => intro i c hc; simp [Circle.loop] at hc
  | succ fuel ih =>
    intro i c hc
    unfold Circle.loop at hc
    split_ifs at hc with hi
    · rcases List.mem_cons.1 hc with h | h
      · subst h; rfl
      · exact ih (i + 1) c h
    · simp at hc

/-- With enough fuel the loop of `Circle::Render` started at `i` runs its body for
`i, i+1, ..., circleSegments` and then stops on its own condition. -/
theorem Circle.loop_length (L : Libm) (cx cy r : ℚ) (n : Nat) :
    ∀ (fuel i : Nat), n + 2 ≤ i + fuel →
      (Circle.loop L cx cy r n fuel i).length = n + 1 - i := by
  intro fuel
  induction fuel with
  | zero => intro i h; simp [Circle.loop]; omega
  | succ fuel ih =>
    intro i h
    unfold Circle.loop
    split_ifs with hi
    · simp only [List.length_cons]
      rw [ih (i + 1) (by omega)]
      omega
    · simp only [List.length_nil]
      omega

/-- The same loop as a list: one vertex for each `i` from the start value up to
and including `circleSegments`. -/
theorem Circle.loop_eq_map (L : Libm) (cx cy r : ℚ) (n : Nat) :
    ∀ (fuel i : Nat), n + 2 ≤ i + fuel →
      Circle.loop L cx cy r n fuel i =
        (List.range' i (n + 1 - i)).map (fun (k : Nat) =>
          Call.glVertex2f (cx + r * L.cos (2 * L.M_PI * (k : ℚ) / (n : ℚ)))
            (cy + r * L.sin (2 * L.M_PI * (k : ℚ) / (n : ℚ)))) := by
  intro fuel
  induction fuel with
  | zero =>
    intro i h
    have h0 : n + 1 - i = 0 := by omega
    simp [Circle.loop, h0]
  | succ fuel ih =>
    intro i h
    unfold Circle.loop
    split_ifs with hi
    · have h1 : n + 1 - i = (n + 1 - (i + 1)) + 1 := by omega
      rw [ih (i + 1) (by omega), h1, List.range'_succ]
      simp
    · have h0 : n + 1 - i = 0 := by omega
      simp [h0]

/-- C9. The calls of `Circle::Render`, for every Model (hidden triangle or not):
the color is set to yellow (1,1,0), one `GL_LINE_LOOP` is begun and ended, and
between its begin and end the loop `for (i = 0; i <= circleSegments; ++i)` emits one
vertex for each i = 0, 1, ..., 100, that is 101 vertices and not 100. -/
theorem Circle.Render_calls (L : Libm) (m : Model) :
    Circle.Render L m =
      (m, [.glColor3f 1 1 0, .glBegin .GL_LINE_LOOP] ++
        (List.range 101).map (fun (k : Nat) =>
          Call.glVertex2f (m.getCx - 100 + 30 * L.cos (2 * L.M_PI * (k : ℚ) / 100))
            (m.getCy - 100 + 30 * L.sin (2 * L.M_PI * (k : ℚ) / 100))) ++
        [.glEnd]) ∧
    ((Circle.Render L m).2.filter Call.isVertex).length = 101 ∧
    (Circle.Render L m).2.countP Call.isBegin = 1 := by
  have hloop := Circle.loop_eq_map L (m.getCx - 100) (m.getCy - 100) 30 100 102 0 (by omega)
  have hall := Circle.loop_isVertex L (m.getCx - 100) (m.getCy - 100) 30 100 102 0
  have hlen := Circle.loop_length L (m.getCx - 100) (m.getCy - 100) 30 100 102 0 (by omega)
  refine ⟨?_, ?_, ?_⟩
  · simp only [Circle.Render]
    rw [hloop]
    simp [List.range_eq_range']
  · have hf : (Circle.loop L (m.getCx - 100) (m.getCy - 100) 30 100 102 0).filter Call.isVertex =
        Circle.loop L (m.getCx - 100) (m.getCy - 100) 30 100 102 0 := List.filter_eq_self.2 hall
    simp only [Circle.Render, List.filter_append, List.length_append, hf, hlen]
    rfl
  · have hb : (Circle.loop L (m.getCx - 100) (m.getCy - 100) 30 100 102 0).countP Call.isBegin = 0 := by
      apply List.countP_eq_zero.2
      intro c hc
      simp [Call.isVertex_not_isBegin c (hall c hc)]
    simp only [Circle.Render, List.countP_append, hb]
    rfl

/-- None of the scene items changes the Model. -/
theorem SceneItem.Render_model (L : Libm) (item : SceneItem) (m : Model) :
    (item.Render L m).1 = m := by
  cases item
  · show (Triangle.Render m).1 = m
    unfold Triangle.Render
    split_ifs <;> rfl
  · rfl
  · rfl

/-- Rendering a list of scene items does not change the Model. -/
theorem OpenGLCanvas.renderItems_model (L : Libm) (items : List SceneItem) :
    ∀ m : Model, (OpenGLCanvas.renderItems L items m).1 = m := by
  induction items with
  | nil => intro m; rfl
  | cons item items ih =>
    intro m
    simp only [OpenGLCanvas.renderItems]
    rw [ih, SceneItem.Render_model]

/-- `Button::Render` does not change the button. -/
theorem Button.Render_button (b : Button) : b.Render.1 = b := by
  unfold Button.Render
  split_ifs <;> rfl

/-! ### The matrix stack -/

/-- The matrix depth after two lists of calls in sequence. -/
theorem matrixDepth_append (cs ds : List Call) :
    ∀ d : Nat, matrixDepth (cs ++ ds) d = (matrixDepth cs d).bind (matrixDepth ds) := by
  induction cs with
  | nil => intro d; simp [matrixDepth]
  | cons c cs ih =>
    intro d
    cases c <;> simp only [List.cons_append, matrixDepth]
    case glPopMatrix => split_ifs <;> simp [ih]
    all_goals exact ih _

/-- Calls that are all `glVertex2f` leave the matrix stack alone. -/
theorem matrixDepth_vertices (cs : List Call) (h : ∀ c ∈ cs, c.isVertex = true) :
    ∀ d : Nat, matrixDepth cs d = some d := by
  induction cs with
  | nil => intro d; rfl
  | cons c cs ih =>
    intro d
    have hc := h c (List.mem_cons_self c cs)
    have ih1 := ih (fun c1 hc1 => h c1 (List.mem_cons_of_mem c hc1)) d
    cases c <;> first | simpa [matrixDepth] using ih1 | exact absurd hc (by simp [Call.isVertex])

/-- `Triangle::Render` pushes and pops the matrix stack in balance. -/
theorem Triangle.Render_triangle_depth (m : Model) (d : Nat) :
    matrixDepth (Triangle.Render m).2 d = some d := by
  unfold Triangle.Render
  split_ifs <;> simp [matrixDepth]

/-- `Circle::Render` does not touch the matrix stack. -/
theorem Circle.Render_circle_depth (L : Libm) (m : Model) (d : Nat) :
    matrixDepth (Circle.Render L m).2 d = some d := by
  have hloop := matrixDepth_vertices _ (Circle.loop_isVertex L (m.getCx - 100) (m.getCy - 100)
    30 100 102 0)
  show matrixDepth ([.glColor3f 1 1 0, .glBegin .GL_LINE_LOOP] ++
    Circle.loop L (m.getCx - 100) (m.getCy - 100) 30 100 102 0 ++ [.glEnd]) d = some d
  rw [matrixDepth_append, matrixDepth_append]
  simp [matrixDepth, hloop]

/-- `Square::Render` does not touch the matrix stack. -/
theorem Square.Render_square_depth (m : Model) (d : Nat) :
    matrixDepth (Square.Render m).2 d = some d := by
  simp [Square.Render, matrixDepth]

/-- `Button::Render` does not touch the matrix stack. -/
theorem Button.Render_button_depth (b : Button) (d : Nat) :
    matrixDepth b.Render.2 d = some d := by
  unfold Button.Render
  split_ifs <;> simp [matrixDepth]

/-- The vertices of the quad of the button are the corners of its rectangle, when
its texture is loaded; there are none otherwise. -/
theorem Button.Render_vertices (b : Button) :
    b.Render.2.filter Call.isVertex =
      if b.textureLoaded then
        [.glVertex2f b.x b.y, .glVertex2f (b.x + b.width) b.y,
         .glVertex2f (b.x + b.width) (b.y + b.height), .glVertex2f b.x (b.y + b.height)]
      else [] := by
  unfold Button.Render
  split_ifs <;> simp [List.filter, Call.isVertex]

/-! ## Theorems about the canvas -/

/-- C3, as stated, fails before the first paint: a size event with client size
640x480 delivered to the freshly constructed canvas leaves the Model at 0x0. -/
theorem OpenGLCanvas.OnSize_before_paint_ignored :
    ¬ ((({} : OpenGLCanvas).OnSize 640 480).1.m_model.getWidth = 640 ∧
       (({} : OpenGLCanvas).OnSize 640 480).1.m_model.getHeight = 480) := by
  simp [OpenGLCanvas.OnSize, Model.getWidth]

/-- C3, amended. For every canvas state with `isOpenGLInitialized = true` and every
size event with client size (w,h), after `OnSize` the Model has `getWidth = w`,
`getHeight = h` and its center recomputed from them; a size event that arrives
while `isOpenGLInitialized = false` leaves the canvas state, the Model included,
unchanged. -/
theorem OpenGLCanvas.OnSize_updates_model (c : OpenGLCanvas) (w h : Int) :
    (c.isOpenGLInitialized = true →
      (c.OnSize w h).1.m_model.getWidth = w ∧
      (c.OnSize w h).1.m_model.getHeight = h ∧
      (c.OnSize w h).1.m_model.getCx = (w : ℚ) / 2 / c.m_model.getZoomLevel ∧
      (c.OnSize w h).1.m_model.getCy = (h : ℚ) / 2 / c.m_model.getZoomLevel ∧
      (c.OnSize w h).1.m_model.getZoomLevel = c.m_model.getZoomLevel) ∧
    (c.isOpenGLInitialized = false → (c.OnSize w h).1 = c) := by
  constructor
  · intro hinit
    simp [OpenGLCanvas.OnSize, hinit, Model.setSize, Model.recalculateCenter, Model.getWidth,
      Model.getHeight, Model.getCx, Model.getCy, Model.getZoomLevel]
  · intro hinit
    simp [OpenGLCanvas.OnSize, hinit]

/-- The amended C3 at an initialized canvas resized to 800x600 and at the fresh
canvas. -/
theorem OpenGLCanvas.OnSize_updates_model_witness :
    (({ isOpenGLInitialized := true } : OpenGLCanvas).OnSize 800 600).1.m_model.getWidth = 800 ∧
    (({} : OpenGLCanvas).OnSize 800 600).1 = {} :=
  ⟨((OpenGLCanvas.OnSize_updates_model { isOpenGLInitialized := true } 800 600).1 rfl).1,
    (OpenGLCanvas.OnSize_updates_model {} 800 600).2 rfl⟩

/-- C10. The calls of `RenderScene`, for a canvas holding the three scene items of
the constructor: clear; push matrix; scale by (zoomLevel, zoomLevel, 1); the calls
of Triangle, Circle and Square in that order; pop matrix; the calls of
`Button::Render`. Pushes and pops are balanced over the whole stream, the depth is
back at its start value right after the pop (so every call of the button comes
after the zoom scale is removed), and the quad vertices of the button are
(x,y), (x+w,y), (x+w,y+h), (x,y+h), the same for every Model. -/
theorem OpenGLCanvas.RenderScene_stream (L : Libm) (c : OpenGLCanvas)
    (hitems : c.sceneItems = [.Triangle, .Circle, .Square]) :
    (c.RenderScene L).2 =
      [.glClearColor (1 / 10) (1 / 10) (1 / 10) 1, .glClear [.GL_COLOR_BUFFER_BIT]] ++
      [.glPushMatrix] ++
      [.glScalef c.m_model.getZoomLevel c.m_model.getZoomLevel 1] ++
      (Triangle.Render c.m_model).2 ++ (Circle.Render L c.m_model).2 ++
      (Square.Render c.m_model).2 ++
      [.glPopMatrix] ++
      c.toggleButton.Render.2 ∧
    matrixDepth (c.RenderScene L).2 0 = some 0 ∧
    matrixDepth
      ([.glClearColor (1 / 10) (1 / 10) (1 / 10) 1, .glClear [.GL_COLOR_BUFFER_BIT]] ++
        [.glPushMatrix] ++
        [.glScalef c.m_model.getZoomLevel c.m_model.getZoomLevel 1]) 0 = some 1 ∧
    matrixDepth
      ([.glClearColor (1 / 10) (1 / 10) (1 / 10) 1, .glClear [.GL_COLOR_BUFFER_BIT]] ++
        [.glPushMatrix] ++
        [.glScalef c.m_model.getZoomLevel c.m_model.getZoomLevel 1] ++
        (Triangle.Render c.m_model).2 ++ (Circle.Render L c.m_model).2 ++
        (Square.Render c.m_model).2 ++
        [.glPopMatrix]) 0 = some 0 ∧
    c.toggleButton.Render.2.filter Call.isVertex =
      (if c.toggleButton.textureLoaded then
        [.glVertex2f c.toggleButton.x c.toggleButton.y,
         .glVertex2f (c.toggleButton.x + c.toggleButton.width) c.toggleButton.y,
         .glVertex2f (c.toggleButton.x + c.toggleButton.width)
           (c.toggleButton.y + c.toggleButton.height),
         .glVertex2f c.toggleButton.x (c.toggleButton.y + c.toggleButton.height)]
      else []) ∧
    (∀ m : Model, ∃ scene : List Call,
      (({ c with m_model := m } : OpenGLCanvas).RenderScene L).2 =
        scene ++ [.glPopMatrix] ++ c.toggleButton.Render.2 ∧
      matrixDepth (scene ++ [.glPopMatrix]) 0 = some 0) := by
  have hstream : ∀ m : Model,
      (({ c with m_model := m } : OpenGLCanvas).RenderScene L).2 =
        [.glClearColor (1 / 10) (1 / 10) (1 / 10) 1, .glClear [.GL_COLOR_BUFFER_BIT]] ++
        [.glPushMatrix] ++ [.glScalef m.getZoomLevel m.getZoomLevel 1] ++
        (Triangle.Render m).2 ++ (Circle.Render L m).2 ++ (Square.Render m).2 ++
        [.glPopMatrix] ++ c.toggleButton.Render.2 := by
    intro m
    have hm1 := SceneItem.Render_model L .Triangle m
    have hm2 := SceneItem.Render_model L .Circle m
    simp only [SceneItem.Render] at hm1 hm2
    simp only [OpenGLCanvas.RenderScene, hitems, OpenGLCanvas.renderItems, SceneItem.Render,
      hm1, hm2, List.append_nil, List.append_assoc, List.cons_append, List.nil_append]
  have hdepth : ∀ m : Model,
      matrixDepth
        ([.glClearColor (1 / 10) (1 / 10) (1 / 10) 1, .glClear [.GL_COLOR_BUFFER_BIT]] ++
          [.glPushMatrix] ++ [.glScalef m.getZoomLevel m.getZoomLevel 1] ++
          (Triangle.Render m).2 ++ (Circle.Render L m).2 ++ (Square.Render m).2 ++
          [.glPopMatrix]) 0 = some 0 := by
    intro m
    simp [matrixDepth_append, matrixDepth, Triangle.Render_triangle_depth,
      Circle.Render_circle_depth, Square.Render_square_depth]
  refine ⟨hstream c.m_model, ?_, ?_, hdepth c.m_model, Button.Render_vertices _, ?_⟩
  · have h0 := hstream c.m_model
    simp only [] at h0
    rw [h0, matrixDepth_append, hdepth c.m_model, Option.some_bind, Button.Render_button_depth]
  · simp [matrixDepth]
  · intro m
    exact ⟨_, hstream m, hdepth m⟩

/-- C10 at the freshly constructed canvas: it holds the three scene items, and its
`RenderScene` stream is balanced. -/
theorem OpenGLCanvas.RenderScene_stream_witness :
    ({} : OpenGLCanvas).sceneItems = [.Triangle, .Circle, .Square] ∧
    matrixDepth (({} : OpenGLCanvas).RenderScene sampleLibm).2 0 = some 0 :=
  ⟨rfl, (OpenGLCanvas.RenderScene_stream sampleLibm {} rfl).2.1⟩

/-! ### One-time initialization -/

/-- Counting `Button::Initialize` invocations over two lists of calls in sequence. -/
theorem initializeCalls_append (cs ds : List Call) :
    initializeCalls (cs ++ ds) = initializeCalls cs + initializeCalls ds := by
  simp [initializeCalls, List.countP_append]

/-- Counting `Button::Initialize` invocations: the empty list of calls. -/
theorem initializeCalls_nil : initializeCalls [] = 0 := rfl

/-- Counting `Button::Initialize` invocations: one more call in front. -/
theorem initializeCalls_cons (c : Call) (cs : List Call) :
    initializeCalls (c :: cs) = initializeCalls cs + (if c.isGenTextures then 1 else 0) := by
  simp [initializeCalls, List.countP_cons]

/-- No scene item calls `glGenTextures`. -/
theorem SceneItem.Render_item_initializeCalls (L : Libm) (item : SceneItem) (m : Model) :
    initializeCalls (item.Render L m).2 = 0 := by
  cases item
  · show initializeCalls (Triangle.Render m).2 = 0
    unfold Triangle.Render
    split_ifs <;> rfl
  · show initializeCalls ([.glColor3f 1 1 0, .glBegin .GL_LINE_LOOP] ++
      Circle.loop L (m.getCx - 100) (m.getCy - 100) 30 100 102 0 ++ [.glEnd]) = 0
    have hloop : initializeCalls (Circle.loop L (m.getCx - 100) (m.getCy - 100) 30 100 102 0) = 0 :=
      List.countP_eq_zero.2 (fun c hc => by
        simp [Call.isVertex_not_isGenTextures c (Circle.loop_isVertex L _ _ _ _ _ _ c hc)])
    rw [initializeCalls_append, initializeCalls_append, hloop]
    rfl
  · rfl

/-- Rendering the scene items never calls `glGenTextures`. -/
theorem OpenGLCanvas.renderItems_initializeCalls (L : Libm) (items : List SceneItem) :
    ∀ m : Model, initializeCalls (OpenGLCanvas.renderItems L items m).2 = 0 := by
  induction items with
  | nil => intro m; rfl
  | cons item items ih =>
    intro m
    simp only [OpenGLCanvas.renderItems]
    rw [initializeCalls_append, ih, SceneItem.Render_item_initializeCalls]

/-- `Button::Render` never calls `glGenTextures`. -/
theorem Button.Render_button_initializeCalls (b : Button) : initializeCalls b.Render.2 = 0 := by
  unfold Button.Render
  split_ifs <;> rfl

/-- `RenderScene` never calls `glGenTextures` and keeps the initialization flag. -/
theorem OpenGLCanvas.RenderScene_initializeCalls (L : Libm) (c : OpenGLCanvas) :
    initializeCalls (c.RenderScene L).2 = 0 ∧
    (c.RenderScene L).1.isOpenGLInitialized = c.isOpenGLInitialized := by
  refine ⟨?_, rfl⟩
  simp only [OpenGLCanvas.RenderScene, initializeCalls_append,
    OpenGLCanvas.renderItems_initializeCalls, Button.Render_button_initializeCalls]
  rfl

/-- Every run of `Button::Initialize` calls `glGenTextures` exactly once, whatever
the external calls answer. -/
theorem Button.Initialize_initializeCalls (b : Button) (env : LoadEnv) :
    initializeCalls (b.Initialize env).2 = 1 := by
  unfold Button.Initialize Button.LoadButtonTexture
  simp only []
  split_ifs <;> rfl

/-- A paint runs `Button::Initialize` once if the canvas was not initialized and not
at all if it was; afterwards the canvas is initialized. -/
theorem OpenGLCanvas.OnPaint_initializeCalls (L : Libm) (c : OpenGLCanvas) (env : LoadEnv) :
    initializeCalls (c.OnPaint L env).2 = (if c.isOpenGLInitialized then 0 else 1) ∧
    (c.OnPaint L env).1.isOpenGLInitialized = true := by
  cases hinit : c.isOpenGLInitialized
  · simp [OpenGLCanvas.OnPaint, hinit, initializeCalls_append, initializeCalls_cons,
      initializeCalls_nil, Call.isGenTextures,
      (OpenGLCanvas.RenderScene_initializeCalls L _).1,
      (OpenGLCanvas.RenderScene_initializeCalls L _).2, Button.Initialize_initializeCalls]
  · simp [OpenGLCanvas.OnPaint, hinit, initializeCalls_append, initializeCalls_cons,
      initializeCalls_nil, Call.isGenTextures,
      (OpenGLCanvas.RenderScene_initializeCalls L _).1,
      (OpenGLCanvas.RenderScene_initializeCalls L _).2]

/-- Effect of one event on the initialization flag and on the number of
`Button::Initialize` invocations. -/
theorem OpenGLCanvas.handle_initializeCalls (L : Libm) (c : OpenGLCanvas) (e : Event) :
    initializeCalls (OpenGLCanvas.handle L c e).2 =
      (if e.isPaint && !c.isOpenGLInitialized then 1 else 0) ∧
    (OpenGLCanvas.handle L c e).1.isOpenGLInitialized = (c.isOpenGLInitialized || e.isPaint) := by
  cases e with
  | paint env =>
    have h := OpenGLCanvas.OnPaint_initializeCalls L c env
    simp only [OpenGLCanvas.handle, Event.isPaint, h.1, h.2]
    cases c.isOpenGLInitialized <;> exact ⟨rfl, rfl⟩
  | size w h =>
    simp only [OpenGLCanvas.handle, OpenGLCanvas.OnSize, Event.isPaint]
    split_ifs <;> simp_all [initializeCalls_cons, initializeCalls_nil, Call.isGenTextures]
  | leftDown x y =>
    simp only [OpenGLCanvas.handle, OpenGLCanvas.OnMouseClick, Button.CheckClick, Event.isPaint]
    split_ifs <;>
      simp_all [initializeCalls_cons, initializeCalls_nil, Call.isGenTextures,
        OpenGLCanvas.ToggleControlPanel]
  | rotationSlider v =>
    simp [OpenGLCanvas.handle, OpenGLCanvas.onRotationSlider, Event.isPaint,
      initializeCalls_cons, initializeCalls_nil, Call.isGenTextures]
  | zoomSlider v =>
    simp [OpenGLCanvas.handle, OpenGLCanvas.onZoomSlider, Event.isPaint, initializeCalls_cons,
      initializeCalls_nil, Call.isGenTextures]
  | checkbox b =>
    simp [OpenGLCanvas.handle, OpenGLCanvas.onCheckbox, Event.isPaint, initializeCalls_cons,
      initializeCalls_nil, Call.isGenTextures]

/-- Over a sequence of events from any canvas state: the flag is set by the first
paint and stays set; `Button::Initialize` runs once if the canvas was not
initialized and the sequence has a paint, and not at all otherwise. -/
theorem OpenGLCanvas.run_initializeCalls (L : Libm) (evs : List Event) :
    ∀ c : OpenGLCanvas,
      (OpenGLCanvas.run L c evs).1.isOpenGLInitialized =
        (c.isOpenGLInitialized || evs.any Event.isPaint) ∧
      initializeCalls (OpenGLCanvas.run L c evs).2 =
        (if evs.any Event.isPaint && !c.isOpenGLInitialized then 1 else 0) := by
  induction evs with
  | nil => intro c; simp [OpenGLCanvas.run, initializeCalls]
  | cons e es ih =>
    intro c
    have hstep := OpenGLCanvas.handle_initializeCalls L c e
    have hrest := ih (OpenGLCanvas.handle L c e).1
    simp only [OpenGLCanvas.run, initializeCalls_append, hstep.1, hrest.1, hrest.2, hstep.2,
      List.any_cons]
    have key : ∀ a p q : Bool,
        (a || p || q) = (a || (p || q)) ∧
        ((if (p && !a) = true then 1 else 0) + (if (q && !(a || p)) = true then 1 else 0) : Nat) =
          (if ((p || q) && !a) = true then 1 else 0) := by decide
    exact key c.isOpenGLInitialized e.isPaint (es.any Event.isPaint)

/-- C6. For every finite sequence of events delivered to the freshly constructed
canvas: `isOpenGLInitialized` is false at the start and, after the sequence, true
exactly when the sequence contains a paint (so it is false before the first paint,
true after it, and once true it stays true under any further events);
`Button::Initialize` has been invoked once if the sequence contains a paint and
never otherwise; and an event delivered next invokes it exactly when that event is
a paint and no paint came before (the invocation happens during the first paint). -/
theorem OpenGLCanvas.initialized_once (L : Libm) (evs : List Event) :
    ({} : OpenGLCanvas).isOpenGLInitialized = false ∧
    (OpenGLCanvas.run L {} evs).1.isOpenGLInitialized = evs.any Event.isPaint ∧
    initializeCalls (OpenGLCanvas.run L {} evs).2 = (if evs.any Event.isPaint then 1 else 0) ∧
    (∀ e : Event,
      initializeCalls (OpenGLCanvas.handle L (OpenGLCanvas.run L {} evs).1 e).2 =
        (if e.isPaint && !evs.any Event.isPaint then 1 else 0)) ∧
    (∀ later : List Event,
      (OpenGLCanvas.run L {} evs).1.isOpenGLInitialized = true →
      (OpenGLCanvas.run L {} (evs ++ later)).1.isOpenGLInitialized = true) := by
  have hrun := OpenGLCanvas.run_initializeCalls L evs {}
  have hflag : (OpenGLCanvas.run L {} evs).1.isOpenGLInitialized = evs.any Event.isPaint := by
    rw [hrun.1]
    exact Bool.false_or _
  refine ⟨rfl, hflag, ?_, ?_, ?_⟩
  · rw [hrun.2]
    simp
  · intro e
    rw [(OpenGLCanvas.handle_initializeCalls L _ e).1, hflag]
  · intro later hinit
    rw [(OpenGLCanvas.run_initializeCalls L (evs ++ later) {}).1, List.any_append, ← hflag, hinit]
    rfl

/-- C6 at the sequence size, paint followed by zoom slider, click, paint: the
canvas is initialized after the first two events and still is after all five. -/
theorem OpenGLCanvas.initialized_once_witness :
    (OpenGLCanvas.run sampleLibm {} [.size 640 480, .paint sampleLoadEnv]).1.isOpenGLInitialized =
      true ∧
    (OpenGLCanvas.run sampleLibm {}
      ([.size 640 480, .paint sampleLoadEnv] ++
        [.zoomSlider 200, .leftDown 30 30, .paint sampleLoadEnv])).1.isOpenGLInitialized = true :=
  have hinit :
      (OpenGLCanvas.run sampleLibm {}
        [.size 640 480, .paint sampleLoadEnv]).1.isOpenGLInitialized = true :=
    (OpenGLCanvas.initialized_once sampleLibm [.size 640 480, .paint sampleLoadEnv]).2.1.trans rfl
  ⟨hinit,
    (OpenGLCanvas.initialized_once sampleLibm [.size 640 480, .paint sampleLoadEnv]).2.2.2.2
      [.zoomSlider 200, .leftDown 30 30, .paint sampleLoadEnv] hinit⟩

/-! ### The zoom level stays positive -/

/-- `RenderScene` returns the Model it was given. -/
theorem OpenGLCanvas.RenderScene_model (L : Libm) (c : OpenGLCanvas) :
    (c.RenderScene L).1.m_model = c.m_model := by
  simp only [OpenGLCanvas.RenderScene, OpenGLCanvas.renderItems_model]

/-- A paint does not change the Model. -/
theorem OpenGLCanvas.OnPaint_model (L : Libm) (c : OpenGLCanvas) (env : LoadEnv) :
    (c.OnPaint L env).1.m_model = c.m_model := by
  simp only [OpenGLCanvas.OnPaint, OpenGLCanvas.RenderScene_model]
  split_ifs <;> rfl

/-- The zoom slider handler stores a hundredth of the slider value. -/
theorem OpenGLCanvas.onZoomSlider_zoomLevel (c : OpenGLCanvas) (v : Int) :
    (c.onZoomSlider v).1.m_model.getZoomLevel = (v : ℚ) / 100 := rfl

/-- A slider value in 10..300 gives a zoom level in [0.10, 3.00]. -/
theorem Model.zoomInRange_of_slider (m : Model) (v : Int) (hlo : 10 ≤ v) (hhi : v ≤ 300) :
    (m.setZoomLevel ((v : ℚ) / 100)).ZoomInRange := by
  have h1 : (10 : ℚ) ≤ (v : ℚ) := by exact_mod_cast hlo
  have h2 : (v : ℚ) ≤ 300 := by exact_mod_cast hhi
  constructor
  · show (1 : ℚ) / 10 ≤ (v : ℚ) / 100
    linarith
  · show (v : ℚ) / 100 ≤ 3
    linarith

/-- Each handler keeps the zoom level in [0.10, 3.00], given that a zoom slider
event carries a value in 10..300. -/
theorem OpenGLCanvas.handle_zoomInRange (L : Libm) (c : OpenGLCanvas) (e : Event)
    (he : ∀ v : Int, e = .zoomSlider v → 10 ≤ v ∧ v ≤ 300) (hc : c.m_model.ZoomInRange) :
    (OpenGLCanvas.handle L c e).1.m_model.ZoomInRange := by
  cases e with
  | paint env =>
    show (c.OnPaint L env).1.m_model.ZoomInRange
    rw [OpenGLCanvas.OnPaint_model]
    exact hc
  | size w h =>
    simp only [OpenGLCanvas.handle, OpenGLCanvas.OnSize]
    split_ifs
    · exact hc
    · exact hc
  | leftDown x y =>
    simp only [OpenGLCanvas.handle, OpenGLCanvas.OnMouseClick, Button.CheckClick]
    split_ifs
    · exact hc
    · exact hc
  | rotationSlider v => exact hc
  | zoomSlider v =>
    exact Model.zoomInRange_of_slider c.m_model v (he v rfl).1 (he v rfl).2
  | checkbox b => exact hc

/-- A sequence of events with in-range zoom slider values keeps the zoom level in
[0.10, 3.00]. -/
theorem OpenGLCanvas.run_zoomInRange (L : Libm) (evs : List Event) :
    ∀ c : OpenGLCanvas, ZoomSliderInRange evs → c.m_model.ZoomInRange →
      (OpenGLCanvas.run L c evs).1.m_model.ZoomInRange := by
  induction evs with
  | nil => intro c _ hc; exact hc
  | cons e es ih =>
    intro c hevs hc
    have hstep := OpenGLCanvas.handle_zoomInRange L c e
      (fun v hv => hevs v (by rw [hv]; exact List.mem_cons_self _ _)) hc
    exact ih (OpenGLCanvas.handle L c e).1
      (fun v hv => hevs v (List.mem_cons_of_mem e hv)) hstep

/-- C11. Assuming the zoom slider only reports values v with 10 <= v <= 300: the
zoom slider handler sets `zoomLevel` to v/100, which lies in [0.10, 3.00]; the
freshly constructed canvas has `zoomLevel = 1`; hence after every finite sequence
of events (paint, size, click, rotation slider, zoom slider, checkbox) the zoom
level lies in [0.10, 3.00], so it is positive and the divisor of
`recalculateCenter` is never zero. -/
theorem OpenGLCanvas.zoomLevel_positive :
    ({} : OpenGLCanvas).m_model.getZoomLevel = 1 ∧
    (∀ (c : OpenGLCanvas) (v : Int), 10 ≤ v → v ≤ 300 →
      (c.onZoomSlider v).1.m_model.getZoomLevel = (v : ℚ) / 100 ∧
      1 / 10 ≤ (c.onZoomSlider v).1.m_model.getZoomLevel ∧
      (c.onZoomSlider v).1.m_model.getZoomLevel ≤ 3) ∧
    (∀ (L : Libm) (evs : List Event), ZoomSliderInRange evs →
      1 / 10 ≤ (OpenGLCanvas.run L {} evs).1.m_model.getZoomLevel ∧
      (OpenGLCanvas.run L {} evs).1.m_model.getZoomLevel ≤ 3 ∧
      0 < (OpenGLCanvas.run L {} evs).1.m_model.getZoomLevel ∧
      (OpenGLCanvas.run L {} evs).1.m_model.getZoomLevel ≠ 0) := by
  refine ⟨rfl, ?_, ?_⟩
  · intro c v hlo hhi
    have h := Model.zoomInRange_of_slider c.m_model v hlo hhi
    exact ⟨rfl, h.1, h.2⟩
  · intro L evs hevs
    have hstart : ({} : OpenGLCanvas).m_model.ZoomInRange := by
      constructor <;> norm_num [Model.getZoomLevel]
    have h := OpenGLCanvas.run_zoomInRange L evs {} hevs hstart
    have hpos : 0 < (OpenGLCanvas.run L {} evs).1.m_model.getZoomLevel :=
      lt_of_lt_of_le (by norm_num) h.1
    exact ⟨h.1, h.2, hpos, ne_of_gt hpos⟩

/-- C11 at slider value 10 and at the sample session, whose zoom slider values
are 10 and 300. -/
theorem OpenGLCanvas.zoomLevel_positive_witness :
    ((10 : Int) ≤ 10 ∧ (10 : Int) ≤ 300 ∧
      1 / 10 ≤ (({} : OpenGLCanvas).onZoomSlider 10).1.m_model.getZoomLevel) ∧
    (ZoomSliderInRange sampleSession ∧
      0 < (OpenGLCanvas.run sampleLibm {} sampleSession).1.m_model.getZoomLevel) :=
  have hrange : ZoomSliderInRange sampleSession := by
    intro v hv
    simp [sampleSession] at hv
    rcases hv with h | h <;> subst h <;> decide
  ⟨⟨by decide, by decide,
      (OpenGLCanvas.zoomLevel_positive.2.1 {} 10 (by decide) (by decide)).2.1⟩,
    hrange, (OpenGLCanvas.zoomLevel_positive.2.2 sampleLibm sampleSession hrange).2.2.1⟩
